import Mathlib

/-!
Verification model of the puppeteer-based crawling session core
(`src/puppeteer.ts`): the capability services, the traffic listeners,
the shared event log, and the browser session manager.

Browser-side effects (DOM queries, network, filesystem) are modelled as
explicit inputs: a DOM snapshot becomes a list of anchors, the element
extent polled by the scroll loop becomes an oracle `Nat → Nat` indexed by
measurement number, and the JSON snapshot read by the cookie loader
becomes an optional list of records (`none` = file missing or malformed).
-/

/-- Scroll direction argument of `ScrollService.scroll`
(`"vertical" | "horizontal" | "both"`, default `"vertical"`). -/
inductive Direction where
  | vertical
  | horizontal
  | both
deriving Repr, DecidableEq

namespace ScrollService

/-- The extent measurement taken before the scroll loop
(`puppeteer.ts` lines 219–230): `dir === "horizontal" || dir === "both"
? element.scrollWidth : element.scrollHeight`, with the element's live
`scrollWidth`/`scrollHeight` passed in explicitly. -/
def measureExtentInitial (dir : Direction) (scrollWidth scrollHeight : Nat) : Nat :=
  if dir = .horizontal ∨ dir = .both then scrollWidth else scrollHeight

/-- The re-measurement taken after each scroll action
(`puppeteer.ts` lines 268–279); the page-side function body is
identical to the initial measurement. -/
def measureExtentAfterScroll (dir : Direction) (scrollWidth scrollHeight : Nat) : Nat :=
  if dir = .horizontal ∨ dir = .both then scrollWidth else scrollHeight

/-- Outcome of a terminating run of the scroll convergence loop:
how many scroll actions were performed and how many extent
measurements were taken (the initial one included). -/
structure ScrollResult where
  scrolls : Nat
  measurements : Nat
deriving Repr, DecidableEq

/-- The `while (currentSize !== previousSize)` loop of
`ScrollService.scroll` (`puppeteer.ts` lines 232–285), with the
element extent returned by the page at the i-th measurement given by
the oracle `measure i`.  Arguments: remaining `fuel` (the code has no
iteration cap, so non-termination within the given fuel surfaces as
`none`), `idx` = index of the next measurement to take, `prev` =
`previousSize`, `cur` = `currentSize`, `scrolls` = scroll actions
performed so far.  One loop iteration = one scroll action (the
smooth-scroll evaluate step) followed by one re-measurement. -/
def scrollLoopAux (measure : Nat → Nat) :
    Nat → Nat → Nat → Nat → Nat → Option ScrollResult
  | 0, _, _, _, _ => none
  | fuel + 1, idx, prev, cur, scrolls =>
    if cur = prev then some ⟨scrolls, idx⟩
    else scrollLoopAux measure fuel (idx + 1) cur (measure idx) (scrolls + 1)

/-- `ScrollService.scroll` after the selector wait: `previousSize = 0`,
`currentSize` = first measurement, then the convergence loop. -/
def scroll (measure : Nat → Nat) (fuel : Nat) : Option ScrollResult :=
  scrollLoopAux measure fuel 1 0 (measure 0) 0

end ScrollService

/-- Whitespace trim on a character list (model of JS
`String.prototype.trim`; Lean core's `String.trim` is not used because
its well-founded recursion does not evaluate inside the kernel). -/
def jsTrimList (cs : List Char) : List Char :=
  ((cs.dropWhile Char.isWhitespace).reverse.dropWhile Char.isWhitespace).reverse

/-- Whitespace trim on strings. -/
def jsTrim (s : String) : String :=
  String.mk (jsTrimList s.data)

/-- `leadsWith p cs` is true when `p` is an initial segment of `cs`. -/
def leadsWith : List Char → List Char → Bool
  | [], _ => true
  | _ :: _, [] => false
  | p :: ps, c :: cs => p == c && leadsWith ps cs

/-- Model of JS `String.prototype.startsWith`. -/
def strStartsWith (s p : String) : Bool :=
  leadsWith p.data s.data

/-- Model of JS `String.prototype.endsWith`. -/
def strEndsWith (s p : String) : Bool :=
  leadsWith p.data.reverse s.data.reverse

/-- ASCII lower-casing (model of `toLocaleLowerCase` on the ASCII
query keys this program meets). -/
def strToLower (s : String) : String :=
  String.mk (s.data.map Char.toLower)

/-- The characters strictly before the first occurrence of `sep`. -/
def beforeChar (sep : Char) : List Char → List Char
  | [] => []
  | c :: rest => if c == sep then [] else c :: beforeChar sep rest

/-- The characters strictly after the first occurrence of `sep`, or
`none` when `sep` does not occur. -/
def afterChar (sep : Char) : List Char → Option (List Char)
  | [] => none
  | c :: rest => if c == sep then some rest else afterChar sep rest

/-- Split a character list at every occurrence of `sep`
(JS `String.prototype.split` with a one-character separator). -/
def splitChar (sep : Char) : List Char → List (List Char)
  | [] => [[]]
  | c :: rest =>
    if c == sep then [] :: splitChar sep rest
    else
      match splitChar sep rest with
      | [] => [[c]]
      | seg :: segs => (c :: seg) :: segs

/-- Longest leading run of decimal digits of a character list, as a
number; `none` when there is no leading digit (JS `parseInt` → `NaN`). -/
def digitsValue (cs : List Char) : Option Nat :=
  let ds := cs.takeWhile Char.isDigit
  if ds.isEmpty then none
  else some (ds.foldl (fun a c => a * 10 + (c.toNat - 48)) 0)

/-- Model of JS `parseInt(s, 10)`: skip leading whitespace, optional
sign, longest run of decimal digits; `none` models `NaN`. -/
def jsParseInt (s : String) : Option Int :=
  match jsTrimList s.data with
  | '-' :: rest => (digitsValue rest).map (fun n => -(n : Int))
  | '+' :: rest => (digitsValue rest).map (fun n => (n : Int))
  | rest => (digitsValue rest).map (fun n => (n : Int))

/-- Query string of a URL: the part after the first `?` and before any
fragment (model of `new URL(url).search` without the leading `?`). -/
def queryStringOf (url : String) : List Char :=
  (afterChar '?' (beforeChar '#' url.data)).getD []

/-- Split a query string into key/value pairs, in order (model of
iterating a `URLSearchParams`): segments are separated by `&`, empty
segments are skipped, a segment splits at its first `=` (value `""`
when there is none).  Percent decoding is not modelled (no claim
exercises it). -/
def queryPairs (q : List Char) : List (String × String) :=
  (splitChar '&' q).filterMap fun seg =>
    if seg.isEmpty then none
    else
      some (String.mk (beforeChar '=' seg),
        String.mk ((afterChar '=' seg).getD []))

/-- `paramsObj[key] = value`: overwrite the value when the key exists
(keeping its position, as JS object insertion order does), otherwise
append the pair. -/
def upsertParam (m : List (String × String)) (k v : String) : List (String × String) :=
  if m.any (fun p => p.1 = k) then
    m.map (fun p => if p.1 = k then (k, v) else p)
  else m ++ [(k, v)]

/-- Model of the URL constructor succeeding: the hrefs handled by this
program are absolute http(s) URLs; anything else is treated as a parse
failure (the `catch` branch of `_extractParams`). -/
def jsURLOk (url : String) : Bool :=
  strStartsWith url "http://" || strStartsWith url "https://"

namespace PaginationService

/-- `_extractParams` from `PaginationService.discover` (`puppeteer.ts`
lines 110–125): parse the URL, fold its query parameters into an object
keyed by the lower-cased parameter name; `null` (here `none`) when URL
parsing throws. -/
def extractParams (url : String) : Option (List (String × String)) :=
  if jsURLOk url then
    some ((queryPairs (queryStringOf url)).foldl
      (fun m kv => upsertParam m (strToLower kv.1) kv.2) [])
  else none

/-- A pagination anchor as seen in the page: its `textContent`
(`none` = null) and its `href`. -/
structure Anchor where
  textContent : Option String
  href : String
deriving Repr, DecidableEq

/-- One element of the `pages` array built by
`PaginationService.discover`: `{page, href, pos, props}`; `page` is
`none` when `parseInt` produced `NaN`, `props` is `none` when the URL
failed to parse. -/
structure PageEntry where
  page : Option Int
  href : String
  pos : Nat
  props : Option (List (String × String))
deriving Repr, DecidableEq

/-- The body of the `.map` phase of `discover` for the anchor at
index `i` (`puppeteer.ts` lines 144–157).
`pos = elements.indexOf(_hrefElement)`: DOM element references in a
`querySelectorAll` result are pairwise distinct, so `indexOf` returns
the element's own index `i`. -/
def anchorEntry (i : Nat) (a : Anchor) : PageEntry :=
  { page := jsParseInt ((a.textContent.map jsTrim).getD "0")
    href := a.href
    pos := i
    props := extractParams a.href }

/-- The `.map` phase of `discover`, walking the anchors with their
indices. -/
def mapAnchorsAux (i : Nat) : List Anchor → List PageEntry
  | [] => []
  | a :: rest => anchorEntry i a :: mapAnchorsAux (i + 1) rest

/-- The `.map` phase of `discover` over the whole anchor list. -/
def mapAnchors (anchors : List Anchor) : List PageEntry :=
  mapAnchorsAux 0 anchors

/-- The `.filter` predicate of `discover` (`puppeteer.ts` line 158):
`page >= 0 && href.trim() !== ""` (false for `NaN`). -/
def entryKeep (e : PageEntry) : Bool :=
  (match e.page with
   | some p => decide (0 ≤ p)
   | none => false) && !(jsTrim e.href == "")

/-- The map-and-filter phase of pagination discovery. -/
def pagesMapFilter (anchors : List Anchor) : List PageEntry :=
  (mapAnchors anchors).filter entryKeep

end PaginationService

/-!
Model of `Array.prototype.sort(comparefn)` as Node/V8 implements it
(TimSort, `third_party/v8/builtins/array-sort.tq`).  The observable
behaviour needed here: the array is decomposed into maximal runs — a
run is strictly descending while `comparefn(a[i], a[i-1]) < 0` (then
reversed) or weakly ascending while `comparefn(a[i], a[i-1]) >= 0` —
and the runs are then merged; merging takes the right element first
exactly when `comparefn(right, left) < 0`.
-/

namespace JSSort

variable {α : Type}

mutual

/-- Start a new run at `a`; the first comparison
`comparefn(next, a) < 0` decides whether the run is descending. -/
def startRun (c : α → α → Int) : α → List α → List (List α)
  | a, [] => [[a]]
  | a, b :: rest =>
    if c b a < 0 then extendDesc c [b, a] b rest
    else extendAsc c [b, a] b rest

/-- Extend a weakly ascending run; `acc` holds the run so far in
reverse order, `prev` its last element. -/
def extendAsc (c : α → α → Int) (acc : List α) (prev : α) : List α → List (List α)
  | [] => [acc.reverse]
  | b :: rest =>
    if c b prev < 0 then acc.reverse :: startRun c b rest
    else extendAsc c (b :: acc) b rest

/-- Extend a strictly descending run; `acc` holds the run so far in
reverse order, which is exactly the reversed run V8 emits. -/
def extendDesc (c : α → α → Int) (acc : List α) (prev : α) : List α → List (List α)
  | [] => [acc]
  | b :: rest =>
    if c b prev < 0 then extendDesc c (b :: acc) b rest
    else acc :: startRun c b rest

end

/-- Decompose a list into the runs TimSort detects. -/
def makeRuns (c : α → α → Int) : List α → List (List α)
  | [] => []
  | a :: rest => startRun c a rest

/-- Merge two runs: take the right element first exactly when
`comparefn(right, left) < 0`. -/
def jsMerge (c : α → α → Int) : List α → List α → List α
  | [], r => r
  | x :: xs, [] => x :: xs
  | x :: xs, y :: ys =>
    if c y x < 0 then y :: jsMerge c (x :: xs) ys
    else x :: jsMerge c xs (y :: ys)
termination_by l r => l.length + r.length

/-- `Array.prototype.sort(comparefn)`: decompose into runs, merge them. -/
def jsSort (c : α → α → Int) (l : List α) : List α :=
  match makeRuns c l with
  | [] => []
  | r :: rs => rs.foldl (jsMerge c) r

end JSSort

namespace PaginationService

/-- The comparator of the trailing `.sort((v) => v.pos)` pass
(`puppeteer.ts` line 159): it names only its first argument and
returns that entry's `pos`, ignoring the second element. -/
def sortByPos (v : PageEntry) (_ : PageEntry) : Int :=
  (v.pos : Int)

/-- The full `pages` pipeline of `PaginationService.discover`
(`puppeteer.ts` lines 141–160): map, filter, then
`.sort((v) => v.pos)`. -/
def discoverPages (anchors : List Anchor) : List PageEntry :=
  JSSort.jsSort sortByPos (pagesMapFilter anchors)

/-- First-occurrence de-duplication: the JS `reduce` into a `Set`
followed by `Array.from` keeps each URL once, in insertion order. -/
def dedupKeepFirst (l : List String) : List String :=
  l.foldl (fun acc h => if acc.contains h then acc else acc ++ [h]) []

/-- The `links` pipeline of `PaginationService.discover`
(`puppeteer.ts` lines 162–172): all anchor hrefs of the document,
kept when same-origin (`startsWith(window.location.origin)`) and
ending in `.aspx`, de-duplicated via a `Set`. -/
def discoverLinks (hrefs : List String) (origin : String) : List String :=
  dedupKeepFirst (hrefs.filter fun h => strStartsWith h origin && strEndsWith h ".aspx")

end PaginationService

/-- A browser cookie (only identity matters to the claims). -/
structure Cookie where
  name : String
  value : String
deriving Repr, DecidableEq

/-- One record of a previously exported log snapshot, as
`loadCookiesFromStorage` reads it: each exported record is a one-key
object `{ [serviceName]: data }`; `key` is that service name and
`cookiesPayload` the cookie array read off when the key is
`"CookiesService"` (the payload of other records is never read). -/
structure SnapshotRecord where
  key : String
  cookiesPayload : List Cookie
deriving Repr, DecidableEq

namespace CookiesService

/-- `CookiesService.loadCookiesFromStorage` (`puppeteer.ts` lines
58–72): dynamic-import the snapshot (`none` models file missing or
malformed, the rejected promise landing in `.catch`), scan the record
array from the start, and take the cookie payload of the FIRST record
carrying the `"CookiesService"` key (the loop breaks there); `[]` on
any failure or when no record matches.  Total: never throws. -/
def loadCookiesFromStorage (snapshot : Option (List SnapshotRecord)) : List Cookie :=
  match snapshot with
  | none => []
  | some records =>
    match records.find? (fun r => r.key == "CookiesService") with
    | some r => r.cookiesPayload
    | none => []

/-- Modelled from the spec (`loadFromStorage` is specified to return
the MOST RECENT Cookies-sourced record): the cookie payload of the
last matching record.  Stated only to compare against the code's
behaviour. -/
def loadMostRecentSpec (snapshot : Option (List SnapshotRecord)) : List Cookie :=
  match snapshot with
  | none => []
  | some records =>
    match records.reverse.find? (fun r => r.key == "CookiesService") with
    | some r => r.cookiesPayload
    | none => []

end CookiesService

/-- Payload of one event-log record, by producing operation.  Each
constructor carries the data the corresponding `statePush` call
records (large payloads abbreviated to what the claims inspect). -/
inductive EventPayload where
  | screenshotMeta (path : String) (size : Nat)
  | cookies (cs : List Cookie)
  | clickSel (selector : String)
  | navMeta (url : String)
  | scrollMeta (selector : String) (direction : Direction)
  | linksPages (links : List String) (pages : List PaginationService.PageEntry)
  | metadataMetrics (title : String) (url : String)
  | content (body : String)
  | requestMeta (method url resourceType : String) (aborted : Bool)
  | responseMeta (url : String) (status : Nat) (content : Option String)
deriving Repr, DecidableEq

/-- One record of the shared event log: `{ [sourceName]: data }` as
pushed by `statePush`. -/
structure LogRecord where
  source : String
  payload : EventPayload
deriving Repr, DecidableEq

/-- The shared event log (`CrawlingState = Array<unknown>`),
append-at-end. -/
abbrev CrawlingState := List LogRecord

/-- One public capability-service operation, carrying the page-side
data it observes (title, cookies, DOM anchors, …) as explicit input. -/
inductive ServiceOp where
  | screenshot (path : String) (size : Nat)
  | loadCookiesFromStorage (snapshot : Option (List SnapshotRecord))
  | setCookies (input : Option (List Cookie))
  | getCookies (current : List Cookie)
  | closeCookies (id : String)
  | click (selector : String)
  | navigate (url : String)
  | scroll (selector : String) (direction : Direction)
  | discover (anchors : List PaginationService.Anchor) (hrefs : List String) (origin : String)
  | getResults (title url : String)
  | getContent (body : String)
deriving Repr

/-- Effect of one capability-service operation on the event log,
transcribed per service from `puppeteer.ts`: exactly the operations
that call `statePush` append one `{ [serviceName]: data }` record at
the end; `loadCookiesFromStorage`, `setCookies` (lines 73–78, only a
`debug` and `page.setCookie`) and `close` (lines 85–96) never touch
the log. -/
def applyOp (op : ServiceOp) (s : CrawlingState) : CrawlingState :=
  match op with
  | .screenshot path size => s ++ [⟨"ScreenshotService", .screenshotMeta path size⟩]
  | .loadCookiesFromStorage _ => s
  | .setCookies _ => s
  | .getCookies current => s ++ [⟨"CookiesService", .cookies current⟩]
  | .closeCookies _ => s
  | .click selector => s ++ [⟨"ClickService", .clickSel selector⟩]
  | .navigate url => s ++ [⟨"NavigationService", .navMeta url⟩]
  | .scroll selector direction => s ++ [⟨"ScrollService", .scrollMeta selector direction⟩]
  | .discover anchors hrefs origin =>
    s ++ [⟨"PaginationService",
      .linksPages (PaginationService.discoverLinks hrefs origin)
        (PaginationService.discoverPages anchors)⟩]
  | .getResults title url => s ++ [⟨"MetricsService", .metadataMetrics title url⟩]
  | .getContent body => s ++ [⟨"ContentService", .content body⟩]

/-- Number of `statePush` calls (records appended) one operation
performs. -/
def opAppendCount (op : ServiceOp) : Nat :=
  match op with
  | .loadCookiesFromStorage _ => 0
  | .setCookies _ => 0
  | .closeCookies _ => 0
  | _ => 1

/-- A sequence of capability-service calls, applied in order. -/
def applyOps (ops : List ServiceOp) (s : CrawlingState) : CrawlingState :=
  ops.foldl (fun st op => applyOp op st) s

/-- An outgoing request as observed by the request handler. -/
structure RequestInfo where
  method : String
  url : String
  resourceType : String
deriving Repr, DecidableEq

/-- What the interceptor does with a request. -/
inductive RequestAction where
  | abort
  | cont
deriving Repr, DecidableEq

/-- The `aborted` field of a request record (`none` for records of
any other shape). -/
def recordAborted (rec : LogRecord) : Option Bool :=
  match rec.payload with
  | .requestMeta _ _ _ aborted => some aborted
  | _ => none

namespace RequestInterceptorListener

/-- The resource types the interceptor blocks (`puppeteer.ts` lines
320–323). -/
def blockedTypes : List String := ["font", "stylesheet", "other"]

/-- The `page.on("request", …)` handler of
`RequestInterceptorListener.attach` (`puppeteer.ts` lines 313–337):
`aborted = indexOf(resourceType) >= 0` over `blockedTypes`; the
handler always pushes one record (with the `aborted` flag) and then
aborts exactly the aborted requests, continuing all others. -/
def handleRequest (r : RequestInfo) : LogRecord × RequestAction :=
  let aborted := blockedTypes.contains r.resourceType
  (⟨"RequestInterceptorListener",
    .requestMeta r.method r.url r.resourceType aborted⟩,
   if aborted then .abort else .cont)

/-- Effect of one intercepted request on the event log, together with
the action taken. -/
def onRequest (r : RequestInfo) (s : CrawlingState) : CrawlingState × RequestAction :=
  let hr := handleRequest r
  (s ++ [hr.1], hr.2)

end RequestInterceptorListener

/-- A response as observed by the response handler; `content` is
`none` when `response.text()` rejected (the `.catch(() => null)`). -/
structure ResponseInfo where
  url : String
  status : Nat
  content : Option String
deriving Repr, DecidableEq

namespace ResponseInterceptorListener

/-- The `page.on("response", …)` handler of
`ResponseInterceptorListener.attach` (`puppeteer.ts` lines 342–362):
push one record per response. -/
def onResponse (r : ResponseInfo) (s : CrawlingState) : CrawlingState :=
  s ++ [⟨"ResponseInterceptorListener", .responseMeta r.url r.status r.content⟩]

end ResponseInterceptorListener

/-- One unit of session activity touching the event log: a
capability-service call or a listener callback firing. -/
inductive SessionStep where
  | service (op : ServiceOp)
  | request (r : RequestInfo)
  | response (r : ResponseInfo)
deriving Repr

/-- Effect of one session step on the event log. -/
def applyStep (step : SessionStep) (s : CrawlingState) : CrawlingState :=
  match step with
  | .service op => applyOp op s
  | .request r => (RequestInterceptorListener.onRequest r s).1
  | .response r => ResponseInterceptorListener.onResponse r s

/-- A sequence of session steps, applied in order. -/
def applySteps (steps : List SessionStep) (s : CrawlingState) : CrawlingState :=
  steps.foldl (fun st step => applyStep step st) s

/-- Abstract handle to the browser connection (`puppeteer.connect` /
`puppeteer.launch` result). -/
structure Browser where
  id : Nat
deriving Repr, DecidableEq

/-- Abstract page handle, recording which listeners have been
attached to it (in attachment order). -/
structure Page where
  id : Nat
  attached : List String
deriving Repr, DecidableEq

/-- The option object passed to `BrowserManager.initialize`; a field
is `some _` exactly when the JS `in` check finds it present. -/
structure InitOptions where
  browserWSEndpoint : Option String
  executablePath : Option String
deriving Repr, DecidableEq

namespace BrowserManager

/-- The session manager's mutable fields: `_page`, `_browser`
(`undefined` = `none`) and the owned event log `_state`. -/
structure State where
  _page : Option Page
  _browser : Option Browser
  _state : CrawlingState
deriving Repr, DecidableEq

/-- A freshly constructed `BrowserManager`: both handles undefined,
empty log. -/
def mk : State := ⟨none, none, []⟩

/-- The `page` getter (`puppeteer.ts` lines 399–402): throws
`"Missing page instance"` when `_page` is undefined. -/
def page (m : State) : Except String Page :=
  match m._page with
  | none => .error "Missing page instance"
  | some p => .ok p

/-- The `browser` getter (`puppeteer.ts` lines 404–407): throws
`"Missing browser instance"` when `_browser` is undefined. -/
def browser (m : State) : Except String Browser :=
  match m._browser with
  | none => .error "Missing browser instance"
  | some b => .ok b

/-- The declaration order of `listenersRegistry` (`puppeteer.ts`
lines 366–369); both registered listeners extend `RequestListener`,
so both pass the `filterRequestListeners` instanceof filter and get
attached. -/
def listenersRegistry : List String :=
  ["RequestInterceptorListener", "ResponseInterceptorListener"]

/-- `BrowserManager.initialize` (`puppeteer.ts` lines 413–427):
connect when `browserWSEndpoint` is present, else launch when
`executablePath` is present, else assign nothing; then
`this._page = await this.browser.newPage()` — the getter's
`"Missing browser instance"` error propagates when neither branch
assigned a browser, before any page is opened or listener attached.
`connect`/`launch`/`newPage` are the driver's effects, passed as
oracles.  Returns the manager's fields after the call together with
the error it threw, if any. -/
def initializeManager (connect launch : InitOptions → Browser) (newPage : Browser → Nat)
    (opts : InitOptions) (m : State) : State × Option String :=
  let m1 : State :=
    if opts.browserWSEndpoint.isSome then { m with _browser := some (connect opts) }
    else if opts.executablePath.isSome then { m with _browser := some (launch opts) }
    else m
  match browser m1 with
  | .error e => (m1, some e)
  | .ok b =>
    let pg : Page :=
      { id := newPage b
        attached := listenersRegistry }
    ({ m1 with _page := some pg }, none)

end BrowserManager

/-!  Theorems.  -/

/-- Helper: when consecutive measurements are never equal, the
convergence loop runs out of any amount of fuel.  Invariant: at the
call the current size is `measure idx` and the previous size differs
from it. -/
theorem scrollLoopAux_ne_none (measure : Nat → Nat)
    (hne : ∀ i, measure (i + 1) ≠ measure i) :
    ∀ (fuel idx prev scrolls : Nat), measure idx ≠ prev →
      ScrollService.scrollLoopAux measure fuel (idx + 1) prev (measure idx) scrolls = none := by
  intro fuel
  induction fuel with
  | zero => intro idx prev scrolls _; rfl
  | succ n ih =>
    intro idx prev scrolls hcur
    rw [ScrollService.scrollLoopAux, if_neg hcur]
    exact ih (idx + 1) (measure idx) (scrolls + 1) (hne idx)

/-- C1: with extent measurements `100, 250, 250` the scroll loop stops
right after the third measurement having performed exactly two scroll
actions; and equality of two consecutive measurements is the only exit
— there is no iteration cap, so when no consecutive measurements ever
agree (and the first is nonzero, so the `previousSize = 0` seed does
not match either) the loop never terminates, whatever fuel it gets. -/
theorem scroll_converges_and_uncapped :
    (∀ (measure : Nat → Nat) (fuel : Nat),
        measure 0 = 100 → measure 1 = 250 → measure 2 = 250 → 3 ≤ fuel →
        ScrollService.scroll measure fuel = some ⟨2, 3⟩) ∧
    (∀ (measure : Nat → Nat) (fuel : Nat),
        (∀ i, measure (i + 1) ≠ measure i) → measure 0 ≠ 0 →
        ScrollService.scroll measure fuel = none) := by
  constructor
  · intro measure fuel h0 h1 h2 hfuel
    obtain ⟨n, rfl⟩ : ∃ n, fuel = n + 3 := ⟨fuel - 3, by omega⟩
    show ScrollService.scrollLoopAux measure (n + 3) 1 0 (measure 0) 0 = some ⟨2, 3⟩
    rw [ScrollService.scrollLoopAux, if_neg (by rw [h0]; decide)]
    rw [ScrollService.scrollLoopAux, if_neg (by rw [h0, h1]; decide)]
    rw [ScrollService.scrollLoopAux, if_pos (by rw [h1, h2])]
  · intro measure fuel hne h0
    exact scrollLoopAux_ne_none measure hne fuel 0 0 0 h0

/-- Witness for C1: both parts at concrete oracles. -/
theorem scroll_converges_and_uncapped_witness :
    ScrollService.scroll (fun i => [100, 250, 250].getD i 250) 3 =
        some ⟨2, 3⟩ ∧
    ScrollService.scroll (fun i => i + 1) 5 = none :=
  ⟨scroll_converges_and_uncapped.1 (fun i => [100, 250, 250].getD i 250) 3
      rfl rfl rfl (by norm_num),
   scroll_converges_and_uncapped.2 (fun i => i + 1) 5
      (fun i => by simp) (by simp)⟩

/-- Counterexample to C2: on an element with `scrollWidth = 3` and
`scrollHeight = 7`, direction `"both"` does NOT measure the vertical
extent that direction `"vertical"` measures — neither at the initial
measurement site nor at the re-measurement site. -/
theorem scroll_both_counterexample :
    ScrollService.measureExtentInitial .both 3 7 ≠
        ScrollService.measureExtentInitial .vertical 3 7 ∧
    ScrollService.measureExtentAfterScroll .both 3 7 ≠
        ScrollService.measureExtentAfterScroll .vertical 3 7 := by
  decide

/-- C2 as amended: for direction `"both"`, both measurement sites
return the element's horizontal extent (`scrollWidth`) — the same
measurement used for direction `"horizontal"`, not the vertical one. -/
theorem scroll_both_measures_width (w h : Nat) :
    ScrollService.measureExtentInitial .both w h = w ∧
    ScrollService.measureExtentAfterScroll .both w h = w ∧
    ScrollService.measureExtentInitial .both w h =
        ScrollService.measureExtentInitial .horizontal w h ∧
    ScrollService.measureExtentAfterScroll .both w h =
        ScrollService.measureExtentAfterScroll .horizontal w h := by
  refine ⟨rfl, rfl, rfl, rfl⟩

/-- Helper: under a comparator that is never negative, an ascending
run absorbs the whole rest of the list. -/
theorem JSSort.extendAsc_of_nonneg {α : Type} (c : α → α → Int)
    (hc : ∀ x y, 0 ≤ c x y) (l : List α) :
    ∀ (acc : List α) (prev : α),
      JSSort.extendAsc c acc prev l = [acc.reverse ++ l] := by
  induction l with
  | nil => intro acc prev; simp [JSSort.extendAsc]
  | cons b rest ih =>
    intro acc prev
    rw [JSSort.extendAsc, if_neg (not_lt.mpr (hc b prev)), ih]
    simp

/-- Helper: under a comparator that is never negative, the whole list
is one ascending run. -/
theorem JSSort.startRun_of_nonneg {α : Type} (c : α → α → Int)
    (hc : ∀ x y, 0 ≤ c x y) (a : α) (l : List α) :
    JSSort.startRun c a l = [a :: l] := by
  cases l with
  | nil => rfl
  | cons b rest =>
    rw [JSSort.startRun, if_neg (not_lt.mpr (hc b a)),
      JSSort.extendAsc_of_nonneg c hc]
    simp

/-- Helper: a JS sort whose comparator never returns a negative value
detects the whole array as a single ascending run and is therefore the
identity. -/
theorem JSSort.jsSort_of_nonneg {α : Type} (c : α → α → Int)
    (hc : ∀ x y, 0 ≤ c x y) (l : List α) :
    JSSort.jsSort c l = l := by
  cases l with
  | nil => rfl
  | cons a rest =>
    rw [JSSort.jsSort, JSSort.makeRuns, JSSort.startRun_of_nonneg c hc]
    rfl

/-- C3: the trailing `.sort((v) => v.pos)` pass of pagination
discovery cannot reorder anything — its comparator returns the first
element's nonnegative `pos` and never a negative value, so the run
detection of the runtime's sort sees one ascending run — and the
`pages` sequence equals the output of the map-and-filter phase. -/
theorem discover_sort_is_noop (anchors : List PaginationService.Anchor) :
    PaginationService.discoverPages anchors =
      PaginationService.pagesMapFilter anchors :=
  JSSort.jsSort_of_nonneg PaginationService.sortByPos
    (fun x _ => Int.natCast_nonneg x.pos) _

/-- Counterexample to C4: on a snapshot holding two Cookies-sourced
records the loader returns the FIRST one (the loop breaks on the first
key match), not the most recent one the claim promises. -/
theorem loadCookies_not_most_recent :
    CookiesService.loadCookiesFromStorage
        (some [⟨"CookiesService", [⟨"a", "1"⟩]⟩, ⟨"CookiesService", [⟨"b", "2"⟩]⟩]) ≠
      CookiesService.loadMostRecentSpec
        (some [⟨"CookiesService", [⟨"a", "1"⟩]⟩, ⟨"CookiesService", [⟨"b", "2"⟩]⟩]) := by
  decide

/-- C4 as amended: `loadCookiesFromStorage` is total (never throws):
it returns `[]` when the snapshot is missing or malformed, `[]` when
no record carries the `"CookiesService"` key, and otherwise the cookie
set of the EARLIEST (first) Cookies-sourced record of the snapshot. -/
theorem loadCookies_first_match :
    CookiesService.loadCookiesFromStorage none = [] ∧
    (∀ (records : List SnapshotRecord),
        (∀ r ∈ records, r.key ≠ "CookiesService") →
        CookiesService.loadCookiesFromStorage (some records) = []) ∧
    (∀ (pre : List SnapshotRecord) (r : SnapshotRecord) (post : List SnapshotRecord),
        (∀ p ∈ pre, p.key ≠ "CookiesService") → r.key = "CookiesService" →
        CookiesService.loadCookiesFromStorage (some (pre ++ r :: post)) =
          r.cookiesPayload) := by
  refine ⟨rfl, ?_, ?_⟩
  · intro records hnone
    have hfind : records.find? (fun r => r.key == "CookiesService") = none := by
      rw [List.find?_eq_none]
      intro x hx
      simpa using hnone x hx
    simp [CookiesService.loadCookiesFromStorage, hfind]
  · intro pre r post hpre hr
    induction pre with
    | nil =>
      simp [CookiesService.loadCookiesFromStorage, List.find?, hr]
    | cons p0 pre' ih =>
      have hp0 : ¬ (p0.key == "CookiesService") = true := by
        simpa using hpre p0 (List.mem_cons_self p0 pre')
      have := ih (fun p hp => hpre p (List.mem_cons_of_mem p0 hp))
      simpa [CookiesService.loadCookiesFromStorage, List.find?, hp0] using this

/-- Witness for C4's amended theorem: a concrete snapshot whose first
Cookies-sourced record sits behind a record of another source. -/
theorem loadCookies_first_match_witness :
    CookiesService.loadCookiesFromStorage
        (some [⟨"NavigationService", []⟩, ⟨"CookiesService", [⟨"a", "1"⟩]⟩]) =
      [⟨"a", "1"⟩] :=
  loadCookies_first_match.2.2 [⟨"NavigationService", []⟩]
    ⟨"CookiesService", [⟨"a", "1"⟩]⟩ [] (by decide) rfl

/-- Counterexample to C5: `CookiesService.setCookies` is a public
capability-service operation that performs no append at all, so after
this single call (N = 1) the log has grown by 0 records, not 1. -/
theorem setCookies_appends_nothing :
    (applyOps [ServiceOp.setCookies (some [⟨"a", "1"⟩])] ([] : CrawlingState)).length ≠ 1 := by
  decide

/-- Helper: the exact number of records one operation appends. -/
theorem applyOp_length (op : ServiceOp) (s : CrawlingState) :
    (applyOp op s).length = s.length + opAppendCount op := by
  cases op <;> simp [applyOp, opAppendCount]

/-- C5 as amended: every capability-service operation appends at most
one record per invocation (`statePush`-calling operations exactly one;
`loadCookiesFromStorage`, `setCookies` and the overlay `close` none),
and after any sequence of calls the log has grown by exactly the
number of `append` invocations those calls make — no loss, no
duplication. -/
theorem log_growth_eq_push_count :
    (∀ op : ServiceOp, opAppendCount op ≤ 1) ∧
    (∀ (ops : List ServiceOp) (s : CrawlingState),
        (applyOps ops s).length = s.length + (ops.map opAppendCount).sum) := by
  constructor
  · intro op; cases op <;> simp [opAppendCount]
  · intro ops
    induction ops with
    | nil => intro s; simp [applyOps]
    | cons op rest ih =>
      intro s
      have : applyOps (op :: rest) s = applyOps rest (applyOp op s) := rfl
      rw [this, ih (applyOp op s), applyOp_length]
      simp [Nat.add_assoc]

/-- C6: on the fixture page whose pagination container holds anchors
labeled 1–5 with query `Page=N` (plus one negative-label anchor and
one blank-href anchor, which the filter drops), `discover` produces
exactly 5 page entries whose `props` carry the lower-cased key
`"page"` mapped to the string form of each N, and a `links` sequence
with exactly the same-origin `.aspx`-suffixed hrefs, de-duplicated. -/
theorem discover_fixture :
    PaginationService.discoverPages
        [⟨some "1", "https://www.myjob.mu/ShowResults.aspx?Page=1"⟩,
         ⟨some "2", "https://www.myjob.mu/ShowResults.aspx?Page=2"⟩,
         ⟨some "3", "https://www.myjob.mu/ShowResults.aspx?Page=3"⟩,
         ⟨some "4", "https://www.myjob.mu/ShowResults.aspx?Page=4"⟩,
         ⟨some "5", "https://www.myjob.mu/ShowResults.aspx?Page=5"⟩,
         ⟨some "-1", "https://www.myjob.mu/ShowResults.aspx?Page=-1"⟩,
         ⟨some "6", "  "⟩] =
      [⟨some 1, "https://www.myjob.mu/ShowResults.aspx?Page=1", 0, some [("page", "1")]⟩,
       ⟨some 2, "https://www.myjob.mu/ShowResults.aspx?Page=2", 1, some [("page", "2")]⟩,
       ⟨some 3, "https://www.myjob.mu/ShowResults.aspx?Page=3", 2, some [("page", "3")]⟩,
       ⟨some 4, "https://www.myjob.mu/ShowResults.aspx?Page=4", 3, some [("page", "4")]⟩,
       ⟨some 5, "https://www.myjob.mu/ShowResults.aspx?Page=5", 4, some [("page", "5")]⟩] ∧
    PaginationService.discoverLinks
        ["https://www.myjob.mu/ShowResults.aspx?Page=1",
         "https://www.myjob.mu/Home.aspx",
         "https://www.myjob.mu/Home.aspx",
         "https://external.example/Other.aspx"]
        "https://www.myjob.mu" =
      ["https://www.myjob.mu/Home.aspx"] := by
  decide

/-- C7: for every observed request, the appended record carries
`aborted = true` exactly when the resource type is one of `font`,
`stylesheet`, `other`; the abort action is taken exactly on those
requests and every other request — `document` in particular — is
continued; and the handler appends exactly that one record. -/
theorem interceptor_abort_policy (r : RequestInfo) (s : CrawlingState) :
    (RequestInterceptorListener.onRequest r s).1 =
        s ++ [(RequestInterceptorListener.handleRequest r).1] ∧
    (recordAborted (RequestInterceptorListener.handleRequest r).1 = some true ↔
        r.resourceType ∈ RequestInterceptorListener.blockedTypes) ∧
    ((RequestInterceptorListener.handleRequest r).2 = .abort ↔
        recordAborted (RequestInterceptorListener.handleRequest r).1 = some true) ∧
    (r.resourceType = "document" →
        (RequestInterceptorListener.handleRequest r).2 = .cont) := by
  refine ⟨rfl, ?_, ?_, ?_⟩
  · by_cases hb : r.resourceType ∈ RequestInterceptorListener.blockedTypes
    · simp [RequestInterceptorListener.handleRequest, recordAborted, hb]
    · simp [RequestInterceptorListener.handleRequest, recordAborted, hb]
  · by_cases hb : r.resourceType ∈ RequestInterceptorListener.blockedTypes
    · simp [RequestInterceptorListener.handleRequest, recordAborted, hb]
    · simp [RequestInterceptorListener.handleRequest, recordAborted, hb]
  · intro hd
    have hb : r.resourceType ∉ RequestInterceptorListener.blockedTypes := by
      rw [hd]; decide
    simp [RequestInterceptorListener.handleRequest, hb]

/-- Witness for C7: a `font` request is recorded aborted, a `document`
request is continued. -/
theorem interceptor_abort_policy_witness :
    recordAborted
        (RequestInterceptorListener.handleRequest ⟨"GET", "https://x", "font"⟩).1 =
      some true ∧
    (RequestInterceptorListener.handleRequest ⟨"GET", "https://x", "document"⟩).2 =
      .cont :=
  ⟨(interceptor_abort_policy ⟨"GET", "https://x", "font"⟩ []).2.1.mpr (by decide),
   (interceptor_abort_policy ⟨"GET", "https://x", "document"⟩ []).2.2.2 rfl⟩

/-- C8: on any manager whose handles are still unset (the
Uninitialized state, before `initialize` has completed), the `page`
and `browser` getters fail with their descriptive missing-instance
errors instead of yielding a value. -/
theorem accessors_fail_before_init (m : BrowserManager.State) :
    (m._page = none →
        BrowserManager.page m = .error "Missing page instance") ∧
    (m._browser = none →
        BrowserManager.browser m = .error "Missing browser instance") := by
  constructor
  · intro h; rw [BrowserManager.page, h]
  · intro h; rw [BrowserManager.browser, h]

/-- Witness for C8: a freshly constructed manager. -/
theorem accessors_fail_before_init_witness :
    BrowserManager.page BrowserManager.mk = .error "Missing page instance" ∧
    BrowserManager.browser BrowserManager.mk = .error "Missing browser instance" :=
  ⟨(accessors_fail_before_init BrowserManager.mk).1 rfl,
   (accessors_fail_before_init BrowserManager.mk).2 rfl⟩

/-- Helper: every single session step only appends at the end of the
log. -/
theorem applyStep_extends (step : SessionStep) (s : CrawlingState) :
    ∃ t, applyStep step s = s ++ t := by
  cases step with
  | service op =>
    cases op <;> first
      | exact ⟨_, rfl⟩
      | exact ⟨[], (List.append_nil s).symm⟩
  | request r => exact ⟨_, rfl⟩
  | response r => exact ⟨_, rfl⟩

/-- C9: the event log is append-only — after any sequence of
capability-service calls and listener callbacks, the previous log
contents are an unchanged initial segment of the new log, with all
new records after them in activity order. -/
theorem log_append_only (steps : List SessionStep) (s : CrawlingState) :
    ∃ t, applySteps steps s = s ++ t := by
  induction steps generalizing s with
  | nil => exact ⟨[], by simp [applySteps]⟩
  | cons step rest ih =>
    obtain ⟨t₁, h₁⟩ := applyStep_extends step s
    obtain ⟨t₂, h₂⟩ := ih (applyStep step s)
    refine ⟨t₁ ++ t₂, ?_⟩
    calc applySteps (step :: rest) s = applySteps rest (applyStep step s) := rfl
      _ = applyStep step s ++ t₂ := h₂
      _ = (s ++ t₁) ++ t₂ := by rw [h₁]
      _ = s ++ (t₁ ++ t₂) := by rw [List.append_assoc]

/-- C10: `initialize` on a fresh manager with an options object that
carries neither `browserWSEndpoint` nor `executablePath` assigns no
browser, throws the browser accessor's `"Missing browser instance"`
error before any page is opened or listener attached, and leaves the
manager exactly as constructed. -/
theorem init_without_endpoint_or_executable_fails
    (connect launch : InitOptions → Browser) (newPage : Browser → Nat)
    (opts : InitOptions)
    (hws : opts.browserWSEndpoint = none) (hexe : opts.executablePath = none) :
    BrowserManager.initializeManager connect launch newPage opts BrowserManager.mk =
      (BrowserManager.mk, some "Missing browser instance") := by
  rw [BrowserManager.initializeManager]
  simp [hws, hexe, BrowserManager.browser, BrowserManager.mk]

/-- Witness for C10: a concrete empty options object and arbitrary
driver oracles. -/
theorem init_without_endpoint_or_executable_fails_witness :
    BrowserManager.initializeManager (fun _ => ⟨1⟩) (fun _ => ⟨2⟩) (fun _ => 0)
        ⟨none, none⟩ BrowserManager.mk =
      (BrowserManager.mk, some "Missing browser instance") :=
  init_without_endpoint_or_executable_fails (fun _ => ⟨1⟩) (fun _ => ⟨2⟩)
    (fun _ => 0) ⟨none, none⟩ rfl rfl
